import Mathlib

/-!
Verification of the shape/area module of `project_rectangle1`.

The repository's source under `src/` contains only the demonstration
script `main.py`, which imports `Point`, `define_triangle`, `Rectangle`
and `Square` from `Shape.shape`; that module itself is not present, so
its definitions below are modelled from the specification (§3, §4, §6).
Coordinates are modelled as real numbers.
-/

noncomputable section

namespace ShapeArea

/-- Modelled from the spec: `Point` is an immutable 2D coordinate value
(two numeric coordinates, equality by value).  The module `Shape.shape`
defining it is not under `src/`. -/
structure Point where
  x : ℝ
  y : ℝ
deriving DecidableEq

/-- Modelled from the spec: the single error kind `InvalidShapeError`,
raised by the triangle factory on collinear points. -/
inductive ShapeError where
  | InvalidShapeError
deriving DecidableEq

/-- Modelled from the spec: a `Triangle` holds exactly 3 points. -/
structure Triangle where
  p1 : Point
  p2 : Point
  p3 : Point

/-- Modelled from the spec: a `Rectangle` holds exactly 4 points,
assumed ordered around the perimeter; no geometric validation. -/
structure Rectangle where
  p1 : Point
  p2 : Point
  p3 : Point
  p4 : Point

/-- Modelled from the spec: `Square` is a subtype of `Rectangle`,
constructed from 4 points identically to `Rectangle`. -/
structure Square extends Rectangle

/-- Modelled from the spec: the shoelace/cross-product area of a point
triple, `0.5 * |x1(y2-y3) + x2(y3-y1) + x3(y1-y2)|`. -/
def shoelace (p1 p2 p3 : Point) : ℝ :=
  (1/2) * |p1.x * (p2.y - p3.y) + p2.x * (p3.y - p1.y) + p3.x * (p1.y - p2.y)|

/-- Modelled from the spec: the ordered point sequence a Triangle exposes. -/
def Triangle.points (t : Triangle) : List Point :=
  [t.p1, t.p2, t.p3]

/-- Modelled from the spec: `Triangle.compute_area` uses the shoelace
formula on the triangle's three points. -/
def Triangle.compute_area (t : Triangle) : ℝ :=
  shoelace t.p1 t.p2 t.p3

/-- Modelled from the spec: the classifying factory `define_triangle`.
Given exactly 3 points it computes the shoelace area and fails with
`InvalidShapeError` when that area is zero; otherwise it returns the
constructed Triangle. -/
def define_triangle (p1 p2 p3 : Point) : Except ShapeError Triangle :=
  if shoelace p1 p2 p3 = 0 then
    .error .InvalidShapeError
  else
    .ok ⟨p1, p2, p3⟩

/-- Modelled from the spec: Euclidean distance between two points. -/
def distance (p q : Point) : ℝ :=
  Real.sqrt ((q.x - p.x) ^ 2 + (q.y - p.y) ^ 2)

/-- Modelled from the spec: the ordered point sequence a Rectangle exposes. -/
def Rectangle.points (r : Rectangle) : List Point :=
  [r.p1, r.p2, r.p3, r.p4]

/-- Modelled from the spec: `Rectangle.compute_area` multiplies the
distance between the first two points (width) by the distance between
the second and third points (height). -/
def Rectangle.compute_area (r : Rectangle) : ℝ :=
  distance r.p1 r.p2 * distance r.p2 r.p3

/-- Modelled from the spec: `Square` reuses `Rectangle`'s area formula. -/
def Square.compute_area (s : Square) : ℝ :=
  s.toRectangle.compute_area

/-- Modelled from the spec: the ordered point sequence a Square exposes. -/
def Square.points (s : Square) : List Point :=
  s.toRectangle.points

/-- Modelled from the spec: Rectangle construction performs no geometric
validation and never fails, so as a fallible operation it always
returns the constructed Rectangle. -/
def mk_rectangle (p1 p2 p3 p4 : Point) : Except ShapeError Rectangle :=
  .ok ⟨p1, p2, p3, p4⟩

/-- Modelled from the spec: Square construction performs no geometric
validation and never fails. -/
def mk_square (p1 p2 p3 p4 : Point) : Except ShapeError Square :=
  .ok ⟨⟨p1, p2, p3, p4⟩⟩

/-- Modelled from the spec: each shape is a pure immutable value, so a
call of `compute_area` yields the area together with the unchanged
shape (no transitions occur). -/
def Triangle.run_compute_area (t : Triangle) : ℝ × Triangle :=
  (t.compute_area, t)

/-- Modelled from the spec: a `compute_area` call on a Rectangle yields
the area and the unchanged Rectangle. -/
def Rectangle.run_compute_area (r : Rectangle) : ℝ × Rectangle :=
  (r.compute_area, r)

/-- Modelled from the spec: a `compute_area` call on a Square yields
the area and the unchanged Square. -/
def Square.run_compute_area (s : Square) : ℝ × Square :=
  (s.compute_area, s)

end ShapeArea

end

namespace ShapeArea

/-- C1: for every triple of non-collinear points (nonzero shoelace
value), `define_triangle` returns a Triangle whose `compute_area`
equals `0.5 * |x1(y2-y3) + x2(y3-y1) + x3(y1-y2)|` on those points. -/
theorem define_triangle_ok_area (p1 p2 p3 : Point)
    (h : shoelace p1 p2 p3 ≠ 0) :
    ∃ t : Triangle, define_triangle p1 p2 p3 = .ok t ∧
      t.compute_area =
        (1/2) * |p1.x * (p2.y - p3.y) + p2.x * (p3.y - p1.y) +
          p3.x * (p1.y - p2.y)| := by
  refine ⟨⟨p1, p2, p3⟩, ?_, rfl⟩
  simp [define_triangle, h]

/-- Witness for C1 at the concrete triple (0,0), (1,0), (0,1). -/
theorem define_triangle_ok_area_witness :
    shoelace ⟨0, 0⟩ ⟨1, 0⟩ ⟨0, 1⟩ ≠ 0 ∧
      ∃ t : Triangle, define_triangle ⟨0, 0⟩ ⟨1, 0⟩ ⟨0, 1⟩ = .ok t ∧
        t.compute_area =
          (1/2) * |(0 : ℝ) * (0 - 1) + 1 * (1 - 0) + 0 * (0 - 0)| := by
  have h : shoelace ⟨0, 0⟩ ⟨1, 0⟩ ⟨0, 1⟩ ≠ 0 := by
    simp [shoelace]
  exact ⟨h, define_triangle_ok_area ⟨0, 0⟩ ⟨1, 0⟩ ⟨0, 1⟩ h⟩

/-- C2: `define_triangle` fails with `InvalidShapeError` exactly when
the shoelace area of the three points is zero (collinear or duplicate
points); otherwise it returns the constructed Triangle. -/
theorem define_triangle_error_iff (p1 p2 p3 : Point) :
    (define_triangle p1 p2 p3 = .error .InvalidShapeError ↔
      shoelace p1 p2 p3 = 0) ∧
    (shoelace p1 p2 p3 ≠ 0 →
      define_triangle p1 p2 p3 = .ok ⟨p1, p2, p3⟩) := by
  constructor
  · by_cases h : shoelace p1 p2 p3 = 0 <;> simp [define_triangle, h]
  · intro h
    simp [define_triangle, h]

/-- Witness for C2 at the concrete collinear triple (0,0), (1,1), (2,2). -/
theorem define_triangle_error_iff_witness :
    define_triangle ⟨0, 0⟩ ⟨1, 1⟩ ⟨2, 2⟩ = .error .InvalidShapeError := by
  apply (define_triangle_error_iff ⟨0, 0⟩ ⟨1, 1⟩ ⟨2, 2⟩).1.mpr
  show (1/2) * |(0 : ℝ) * (1 - 2) + 1 * (2 - 0) + 2 * (0 - 1)| = 0
  norm_num

/-- C3: a Rectangle built from any 4 points has area equal to the
Euclidean distance between the first two points times the Euclidean
distance between the second and third, with no rectangularity check. -/
theorem rectangle_area_formula (p1 p2 p3 p4 : Point) :
    (Rectangle.mk p1 p2 p3 p4).compute_area =
      Real.sqrt ((p2.x - p1.x) ^ 2 + (p2.y - p1.y) ^ 2) *
        Real.sqrt ((p3.x - p2.x) ^ 2 + (p3.y - p2.y) ^ 2) := by
  rfl

/-- Witness for C3 at the non-rectangle 4 points (0,0), (3,0), (3,4), (9,9):
the formula is still applied as-is. -/
theorem rectangle_area_formula_witness :
    (Rectangle.mk ⟨0, 0⟩ ⟨3, 0⟩ ⟨3, 4⟩ ⟨9, 9⟩).compute_area =
      Real.sqrt (((3 : ℝ) - 0) ^ 2 + ((0 : ℝ) - 0) ^ 2) *
        Real.sqrt (((3 : ℝ) - 3) ^ 2 + ((4 : ℝ) - 0) ^ 2) :=
  rectangle_area_formula ⟨0, 0⟩ ⟨3, 0⟩ ⟨3, 4⟩ ⟨9, 9⟩

/-- C4: a Square built from any 4 points has the same area as the
Rectangle built from those points (the formula is reused unchanged). -/
theorem square_area_eq_rectangle_area (p1 p2 p3 p4 : Point) :
    (Square.mk ⟨p1, p2, p3, p4⟩).compute_area =
      (Rectangle.mk p1 p2 p3 p4).compute_area := by
  rfl

/-- Witness for C4 at the concrete 4 points (0,0), (2,0), (2,2), (0,2). -/
theorem square_area_eq_rectangle_area_witness :
    (Square.mk ⟨⟨0, 0⟩, ⟨2, 0⟩, ⟨2, 2⟩, ⟨0, 2⟩⟩).compute_area =
      (Rectangle.mk ⟨0, 0⟩ ⟨2, 0⟩ ⟨2, 2⟩ ⟨0, 2⟩).compute_area :=
  square_area_eq_rectangle_area ⟨0, 0⟩ ⟨2, 0⟩ ⟨2, 2⟩ ⟨0, 2⟩

/-- C5: every shape variant, built from any points, has a non-negative
`compute_area` value. -/
theorem compute_area_nonneg (t : Triangle) (r : Rectangle) (s : Square) :
    0 ≤ t.compute_area ∧ 0 ≤ r.compute_area ∧ 0 ≤ s.compute_area := by
  refine ⟨?_, ?_, ?_⟩
  · unfold Triangle.compute_area shoelace
    positivity
  · unfold Rectangle.compute_area distance
    positivity
  · unfold Square.compute_area Rectangle.compute_area distance
    positivity

/-- Witness for C5 at concrete shapes built from small integer points. -/
theorem compute_area_nonneg_witness :
    0 ≤ (Triangle.mk ⟨0, 0⟩ ⟨1, 0⟩ ⟨0, 1⟩).compute_area ∧
    0 ≤ (Rectangle.mk ⟨0, 0⟩ ⟨4, 0⟩ ⟨4, 3⟩ ⟨0, 3⟩).compute_area ∧
    0 ≤ (Square.mk ⟨⟨0, 0⟩, ⟨2, 0⟩, ⟨2, 2⟩, ⟨0, 2⟩⟩).compute_area :=
  compute_area_nonneg (Triangle.mk ⟨0, 0⟩ ⟨1, 0⟩ ⟨0, 1⟩)
    (Rectangle.mk ⟨0, 0⟩ ⟨4, 0⟩ ⟨4, 3⟩ ⟨0, 3⟩)
    (Square.mk ⟨⟨0, 0⟩, ⟨2, 0⟩, ⟨2, 2⟩, ⟨0, 2⟩⟩)

/-- C6: the shoelace area of a point triple is unchanged under every
permutation of the three points. -/
theorem shoelace_perm_invariant (p1 p2 p3 : Point) :
    shoelace p1 p2 p3 = shoelace p2 p3 p1 ∧
    shoelace p1 p2 p3 = shoelace p3 p1 p2 ∧
    shoelace p1 p2 p3 = shoelace p2 p1 p3 ∧
    shoelace p1 p2 p3 = shoelace p1 p3 p2 ∧
    shoelace p1 p2 p3 = shoelace p3 p2 p1 := by
  refine ⟨?_, ?_, ?_, ?_, ?_⟩
  · simp only [shoelace]
    congr 1
    apply abs_eq_abs.mpr
    left
    ring
  · simp only [shoelace]
    congr 1
    apply abs_eq_abs.mpr
    left
    ring
  · simp only [shoelace]
    congr 1
    apply abs_eq_abs.mpr
    right
    ring
  · simp only [shoelace]
    congr 1
    apply abs_eq_abs.mpr
    right
    ring
  · simp only [shoelace]
    congr 1
    apply abs_eq_abs.mpr
    right
    ring

/-- Witness for C6 at the concrete triple (0,0), (1,0), (0,1). -/
theorem shoelace_perm_invariant_witness :
    shoelace ⟨0, 0⟩ ⟨1, 0⟩ ⟨0, 1⟩ = shoelace ⟨1, 0⟩ ⟨0, 1⟩ ⟨0, 0⟩ ∧
    shoelace ⟨0, 0⟩ ⟨1, 0⟩ ⟨0, 1⟩ = shoelace ⟨0, 1⟩ ⟨0, 0⟩ ⟨1, 0⟩ ∧
    shoelace ⟨0, 0⟩ ⟨1, 0⟩ ⟨0, 1⟩ = shoelace ⟨1, 0⟩ ⟨0, 0⟩ ⟨0, 1⟩ ∧
    shoelace ⟨0, 0⟩ ⟨1, 0⟩ ⟨0, 1⟩ = shoelace ⟨0, 0⟩ ⟨0, 1⟩ ⟨1, 0⟩ ∧
    shoelace ⟨0, 0⟩ ⟨1, 0⟩ ⟨0, 1⟩ = shoelace ⟨0, 1⟩ ⟨1, 0⟩ ⟨0, 0⟩ :=
  shoelace_perm_invariant ⟨0, 0⟩ ⟨1, 0⟩ ⟨0, 1⟩

/-- C7: Rectangle and Square construction from any 4 points never
fails: it always returns the constructed shape, never an error. -/
theorem mk_rectangle_square_never_fails (p1 p2 p3 p4 : Point) :
    mk_rectangle p1 p2 p3 p4 = .ok ⟨p1, p2, p3, p4⟩ ∧
    mk_square p1 p2 p3 p4 = .ok ⟨⟨p1, p2, p3, p4⟩⟩ ∧
    (∀ e, mk_rectangle p1 p2 p3 p4 ≠ .error e) ∧
    (∀ e, mk_square p1 p2 p3 p4 ≠ .error e) := by
  refine ⟨rfl, rfl, ?_, ?_⟩ <;> intro e <;>
    simp [mk_rectangle, mk_square]

/-- Witness for C7 at the degenerate 4 points (0,0), (0,0), (0,0), (0,0):
construction still succeeds. -/
theorem mk_rectangle_square_never_fails_witness :
    mk_rectangle ⟨0, 0⟩ ⟨0, 0⟩ ⟨0, 0⟩ ⟨0, 0⟩ =
      .ok ⟨⟨0, 0⟩, ⟨0, 0⟩, ⟨0, 0⟩, ⟨0, 0⟩⟩ ∧
    mk_square ⟨0, 0⟩ ⟨0, 0⟩ ⟨0, 0⟩ ⟨0, 0⟩ =
      .ok ⟨⟨⟨0, 0⟩, ⟨0, 0⟩, ⟨0, 0⟩, ⟨0, 0⟩⟩⟩ ∧
    (∀ e, mk_rectangle ⟨0, 0⟩ ⟨0, 0⟩ ⟨0, 0⟩ ⟨0, 0⟩ ≠ .error e) ∧
    (∀ e, mk_square ⟨0, 0⟩ ⟨0, 0⟩ ⟨0, 0⟩ ⟨0, 0⟩ ≠ .error e) :=
  mk_rectangle_square_never_fails ⟨0, 0⟩ ⟨0, 0⟩ ⟨0, 0⟩ ⟨0, 0⟩

/-- `Real.sqrt a = b` follows from `b ^ 2 = a` for non-negative `b`. -/
lemma sqrt_eq_of_sq (a b : ℝ) (hb : 0 ≤ b) (h : b ^ 2 = a) :
    Real.sqrt a = b := by
  rw [← h, Real.sqrt_sq hb]

/-- `√12 = 2 √3`. -/
lemma sqrt_twelve : Real.sqrt 12 = 2 * Real.sqrt 3 := by
  rw [show (12 : ℝ) = 4 * 3 by norm_num,
    Real.sqrt_mul (by norm_num : (0 : ℝ) ≤ 4),
    sqrt_eq_of_sq 4 2 (by norm_num) (by norm_num)]

/-- The shoelace value of the demonstration triangle
(0,0), (4,0), (2,√12) is `2 √12`. -/
lemma shoelace_demo :
    shoelace ⟨0, 0⟩ ⟨4, 0⟩ ⟨2, Real.sqrt 12⟩ = 2 * Real.sqrt 12 := by
  show (1/2) * |(0 : ℝ) * (0 - Real.sqrt 12) + 4 * (Real.sqrt 12 - 0) +
    2 * (0 - 0)| = 2 * Real.sqrt 12
  rw [show (0 : ℝ) * (0 - Real.sqrt 12) + 4 * (Real.sqrt 12 - 0) +
      2 * (0 - 0) = 4 * Real.sqrt 12 by ring,
    abs_of_nonneg (by positivity)]
  ring

/-- C8: on the demonstration inputs, the rectangle's area is 12, the
square's area is 4, and the triangle built by `define_triangle` from
(0,0), (4,0), (2,√12) has area `4 √3`. -/
theorem demo_areas :
    (Rectangle.mk ⟨0, 0⟩ ⟨4, 0⟩ ⟨4, 3⟩ ⟨0, 3⟩).compute_area = 12 ∧
    (Square.mk ⟨⟨0, 0⟩, ⟨2, 0⟩, ⟨2, 2⟩, ⟨0, 2⟩⟩).compute_area = 4 ∧
    ∃ t : Triangle,
      define_triangle ⟨0, 0⟩ ⟨4, 0⟩ ⟨2, Real.sqrt 12⟩ = .ok t ∧
        t.compute_area = 4 * Real.sqrt 3 := by
  refine ⟨?_, ?_, ?_⟩
  · show Real.sqrt ((4 - 0) ^ 2 + (0 - 0) ^ 2) *
      Real.sqrt ((4 - 4) ^ 2 + (3 - 0) ^ 2) = 12
    norm_num
    rw [sqrt_eq_of_sq 16 4 (by norm_num) (by norm_num),
      sqrt_eq_of_sq 9 3 (by norm_num) (by norm_num)]
    norm_num
  · show Real.sqrt ((2 - 0) ^ 2 + (0 - 0) ^ 2) *
      Real.sqrt ((2 - 2) ^ 2 + (2 - 0) ^ 2) = 4
    norm_num
  · have h : shoelace ⟨0, 0⟩ ⟨4, 0⟩ ⟨2, Real.sqrt 12⟩ ≠ 0 := by
      rw [shoelace_demo]
      positivity
    refine ⟨⟨⟨0, 0⟩, ⟨4, 0⟩, ⟨2, Real.sqrt 12⟩⟩, ?_, ?_⟩
    · simp [define_triangle, h]
    · show shoelace ⟨0, 0⟩ ⟨4, 0⟩ ⟨2, Real.sqrt 12⟩ = 4 * Real.sqrt 3
      rw [shoelace_demo, sqrt_twelve]
      ring

/-- C9: a shape's point sequence is exactly the points given at
construction, and any number of `compute_area` calls leaves it
unchanged. -/
theorem points_immutable (a b c q1 q2 q3 q4 : Point)
    (t : Triangle) (r : Rectangle) (s : Square) (n : ℕ) :
    (Triangle.mk a b c).points = [a, b, c] ∧
    (Rectangle.mk q1 q2 q3 q4).points = [q1, q2, q3, q4] ∧
    (Square.mk ⟨q1, q2, q3, q4⟩).points = [q1, q2, q3, q4] ∧
    ((fun x : Triangle => x.run_compute_area.2)^[n] t).points = t.points ∧
    ((fun x : Rectangle => x.run_compute_area.2)^[n] r).points = r.points ∧
    ((fun x : Square => x.run_compute_area.2)^[n] s).points = s.points := by
  have ht : (fun x : Triangle => x.run_compute_area.2) = id := rfl
  have hr : (fun x : Rectangle => x.run_compute_area.2) = id := rfl
  have hs : (fun x : Square => x.run_compute_area.2) = id := rfl
  refine ⟨rfl, rfl, rfl, ?_, ?_, ?_⟩
  · rw [ht, Function.iterate_id]
    rfl
  · rw [hr, Function.iterate_id]
    rfl
  · rw [hs, Function.iterate_id]
    rfl

/-- Witness for C9 at concrete shapes and two `compute_area` calls. -/
theorem points_immutable_witness :
    (Triangle.mk ⟨0, 0⟩ ⟨1, 0⟩ ⟨0, 1⟩).points =
      [⟨0, 0⟩, ⟨1, 0⟩, ⟨0, 1⟩] ∧
    (Rectangle.mk ⟨0, 0⟩ ⟨4, 0⟩ ⟨4, 3⟩ ⟨0, 3⟩).points =
      [⟨0, 0⟩, ⟨4, 0⟩, ⟨4, 3⟩, ⟨0, 3⟩] ∧
    (Square.mk ⟨⟨0, 0⟩, ⟨4, 0⟩, ⟨4, 3⟩, ⟨0, 3⟩⟩).points =
      [⟨0, 0⟩, ⟨4, 0⟩, ⟨4, 3⟩, ⟨0, 3⟩] ∧
    ((fun x : Triangle => x.run_compute_area.2)^[2]
      (Triangle.mk ⟨0, 0⟩ ⟨1, 0⟩ ⟨0, 1⟩)).points =
      (Triangle.mk ⟨0, 0⟩ ⟨1, 0⟩ ⟨0, 1⟩).points ∧
    ((fun x : Rectangle => x.run_compute_area.2)^[2]
      (Rectangle.mk ⟨0, 0⟩ ⟨4, 0⟩ ⟨4, 3⟩ ⟨0, 3⟩)).points =
      (Rectangle.mk ⟨0, 0⟩ ⟨4, 0⟩ ⟨4, 3⟩ ⟨0, 3⟩).points ∧
    ((fun x : Square => x.run_compute_area.2)^[2]
      (Square.mk ⟨⟨0, 0⟩, ⟨4, 0⟩, ⟨4, 3⟩, ⟨0, 3⟩⟩)).points =
      (Square.mk ⟨⟨0, 0⟩, ⟨4, 0⟩, ⟨4, 3⟩, ⟨0, 3⟩⟩).points :=
  points_immutable ⟨0, 0⟩ ⟨1, 0⟩ ⟨0, 1⟩ ⟨0, 0⟩ ⟨4, 0⟩ ⟨4, 3⟩ ⟨0, 3⟩
    (Triangle.mk ⟨0, 0⟩ ⟨1, 0⟩ ⟨0, 1⟩)
    (Rectangle.mk ⟨0, 0⟩ ⟨4, 0⟩ ⟨4, 3⟩ ⟨0, 3⟩)
    (Square.mk ⟨⟨0, 0⟩, ⟨4, 0⟩, ⟨4, 3⟩, ⟨0, 3⟩⟩) 2

/-- C10: `define_triangle` on the demonstration points
(0,0), (4,0), (2,√12) succeeds, so the error branch of the factory is
not taken for this input. -/
theorem demo_define_triangle_ok :
    define_triangle ⟨0, 0⟩ ⟨4, 0⟩ ⟨2, Real.sqrt 12⟩ =
      .ok ⟨⟨0, 0⟩, ⟨4, 0⟩, ⟨2, Real.sqrt 12⟩⟩ ∧
    ∀ e, define_triangle ⟨0, 0⟩ ⟨4, 0⟩ ⟨2, Real.sqrt 12⟩ ≠ .error e := by
  have h : shoelace ⟨0, 0⟩ ⟨4, 0⟩ ⟨2, Real.sqrt 12⟩ ≠ 0 := by
    rw [shoelace_demo]
    positivity
  exact ⟨by simp [define_triangle, h], fun e => by simp [define_triangle, h]⟩

end ShapeArea
